import Mathlib

/-!
Verification of the easy-rcon client (src/index.js): wire-format codec
(`createPacket`, `getId`, `getType`, `getPayload`) and the session state
machine (the socket event handlers and the public `send` / `disconnect`
operations), shallowly embedded in Lean.

Buffers are modelled as `List Nat` of byte values; JS strings passed to the
codec are modelled as their lists of character codes.  Machine int32
reads/writes are modelled with explicit two's-complement arithmetic on
`Int` / `Nat`.
-/

namespace EasyRcon

/-- The fixed correlation id (`const packetId = 1337` in the source). -/
def packetId : Int := 1337

/-- `PACKET_TYPE.AUTH` -/
def PACKET_TYPE_AUTH : Int := 3

/-- `PACKET_TYPE.AUTH_RESPONSE` -/
def PACKET_TYPE_AUTH_RESPONSE : Int := 2

/-- `PACKET_TYPE.EXEC_COMMAND` (shares the numeric value 2 with AUTH_RESPONSE) -/
def PACKET_TYPE_EXEC_COMMAND : Int := 2

/-- `PACKET_TYPE.RESPONSE_VALUE` -/
def PACKET_TYPE_RESPONSE_VALUE : Int := 0

/--
`buf.writeInt32LE(v)`: the four bytes of `v`, little-endian, two's
complement.  Node validates `-2^31 ≤ v ≤ 2^31 - 1` (out-of-range throws a
RangeError); within that range the bytes written are those of
`v mod 2^32`.
-/
def writeInt32LE (v : Int) : List Nat :=
  let u := (v % 4294967296).toNat
  [u % 256, u / 256 % 256, u / 65536 % 256, u / 16777216 % 256]

/--
`buf.readInt32LE()` at offset 0: the first four bytes, little-endian,
interpreted as a signed 32-bit integer.  (Node throws on a buffer shorter
than 4 bytes; that case never arises in the uses proved about below, and
is modelled as 0.)
-/
def readInt32LE (b : List Nat) : Int :=
  match b with
  | b0 :: b1 :: b2 :: b3 :: _ =>
    let u := b0 + 256 * b1 + 65536 * b2 + 16777216 * b3
    if u < 2147483648 then (u : Int) else (u : Int) - 4294967296
  | _ => 0

/--
`buffer.subarray(s, e)`: the byte slice `[s, e)`.  A negative index counts
from the end of the buffer; indices are clamped to `[0, length]`, and an
empty slice results when the clamped start is at or past the clamped end.
-/
def subarray (b : List Nat) (s e : Int) : List Nat :=
  let clamp : Int → Nat := fun i =>
    if i < 0 then (b.length + i).toNat else min i.toNat b.length
  (b.take (clamp e)).drop (clamp s)

/--
`Buffer.from(payload, 'ascii')`: Node's `'ascii'` encoding stores each
character code modulo 256 (it is `'latin1'` on the encoding side).
-/
def bufferFromAscii (payload : List Nat) : List Nat :=
  payload.map (fun c => c % 256)

/--
`buf.toString('ascii')`: decoding additionally clears the highest bit of
each byte, i.e. takes each byte modulo 128.
-/
def bufferToAscii (b : List Nat) : List Nat :=
  b.map (fun c => c % 128)

/-- `getPayload(buffer)` from the source:
`size = buffer.subarray(0,4).readInt32LE(); return buffer.subarray(12, 12 + (size - 10)).toString('ascii')`. -/
def getPayload (buffer : List Nat) : List Nat :=
  let size := readInt32LE (subarray buffer 0 4)
  bufferToAscii (subarray buffer 12 (12 + (size - 10)))

/-- `getId(buffer)`: `buffer.subarray(4, 8).readInt32LE()`. -/
def getId (buffer : List Nat) : Int :=
  readInt32LE (subarray buffer 4 8)

/-- `getType(buffer)`: `buffer.subarray(8, 12).readInt32LE()`. -/
def getType (buffer : List Nat) : Int :=
  readInt32LE (subarray buffer 8 12)

/--
`createPacket(type, payload)` from the source: body =
`id ‖ type ‖ payload(ascii) ‖ 0x00 ‖ 0x00`, prefixed with the 4-byte
little-endian byte length of the body.
-/
def createPacket (type : Int) (payload : List Nat) : List Nat :=
  let nullBuffer : List Nat := [0]
  let idBuffer := writeInt32LE packetId
  let typeBuffer := writeInt32LE type
  let payloadBuffer := bufferFromAscii payload
  let commandBuffer := idBuffer ++ typeBuffer ++ payloadBuffer ++ nullBuffer ++ nullBuffer
  let sizeBuffer := writeInt32LE ((commandBuffer.length : Nat) : Int)
  sizeBuffer ++ commandBuffer

theorem writeInt32LE_length (v : Int) : (writeInt32LE v).length = 4 := rfl

/-- Reading back a written nonnegative int32 value is the identity. -/
theorem readInt32LE_writeInt32LE (n : Nat) (h : n < 2147483648) :
    readInt32LE (writeInt32LE ((n : Nat) : Int)) = ((n : Nat) : Int) := by
  unfold writeInt32LE readInt32LE
  have hmod : (((n : Nat) : Int) % 4294967296).toNat = n := by omega
  simp only [hmod]
  have hsum : n % 256 + 256 * (n / 256 % 256) + 65536 * (n / 65536 % 256)
      + 16777216 * (n / 16777216 % 256) = n := by omega
  simp only [hsum]
  rw [if_pos h]

/-- The packet, written as explicit concatenation of its five segments. -/
theorem createPacket_eq (type : Int) (payload : List Nat) :
    createPacket type payload =
      writeInt32LE (((10 + payload.length : Nat) : Nat) : Int) ++
      (writeInt32LE packetId ++
      (writeInt32LE type ++
      (bufferFromAscii payload ++ [0, 0]))) := by
  unfold createPacket bufferFromAscii
  simp [List.length_append, List.length_map, List.append_assoc, writeInt32LE_length]
  congr 1
  omega

/-- Slicing out exactly the middle segment of a concatenation. -/
theorem subarray_append (pre mid post : List Nat) (s e : Int)
    (hs : s = ((pre.length : Nat) : Int)) (he : e = ((pre.length + mid.length : Nat) : Int)) :
    subarray (pre ++ (mid ++ post)) s e = mid := by
  subst hs he
  unfold subarray
  have hlen : (pre ++ (mid ++ post)).length = pre.length + mid.length + post.length := by
    simp [List.length_append]
    omega
  have hcs : (if ((pre.length : Nat) : Int) < 0 then
      ((pre ++ (mid ++ post)).length + ((pre.length : Nat) : Int)).toNat
      else min ((pre.length : Nat) : Int).toNat (pre ++ (mid ++ post)).length) = pre.length := by
    rw [if_neg (by omega)]
    omega
  have hce : (if (((pre.length + mid.length : Nat) : Nat) : Int) < 0 then
      ((pre ++ (mid ++ post)).length + (((pre.length + mid.length : Nat) : Nat) : Int)).toNat
      else min (((pre.length + mid.length : Nat) : Nat) : Int).toNat (pre ++ (mid ++ post)).length)
      = pre.length + mid.length := by
    rw [if_neg (by omega)]
    omega
  simp only [hcs, hce]
  rw [List.take_append, List.take_left, List.drop_left]

/-- Slicing out an initial segment of a concatenation. -/
theorem subarray_left (mid post : List Nat) (e : Int)
    (he : e = ((mid.length : Nat) : Int)) :
    subarray (mid ++ post) 0 e = mid := by
  subst he
  have h := subarray_append [] mid post 0 ((mid.length : Nat) : Int) (by simp) (by simp)
  simpa using h

/-- Decoding an ascii-encoded buffer recovers the original character codes
when all of them are 7-bit. -/
theorem ascii_round (p : List Nat) (h : p.all (fun c => c < 128) = true) :
    bufferToAscii (bufferFromAscii p) = p := by
  induction p with
  | nil => rfl
  | cons c cs ih =>
    simp only [List.all_cons, Bool.and_eq_true, decide_eq_true_eq] at h
    unfold bufferToAscii bufferFromAscii at *
    simp only [List.map_cons, List.map_map] at *
    refine List.cons_eq_cons.mpr ⟨by omega, ?_⟩
    exact ih h.2

/-- The id field of a created packet decodes back through `readInt32LE`. -/
theorem getId_createPacket (t : Int) (p : List Nat) :
    getId (createPacket t p) = 1337 := by
  unfold getId
  rw [createPacket_eq,
    subarray_append (writeInt32LE (((10 + p.length : Nat) : Nat) : Int))
      (writeInt32LE packetId) (writeInt32LE t ++ (bufferFromAscii p ++ [0, 0])) 4 8
      (by simp [writeInt32LE_length]) (by simp [writeInt32LE_length])]
  decide

/-- The type field of a created packet decodes to the written int32. -/
theorem getType_createPacket (t : Int) (p : List Nat) :
    getType (createPacket t p) = readInt32LE (writeInt32LE t) := by
  unfold getType
  rw [createPacket_eq, ← List.append_assoc,
    subarray_append (writeInt32LE (((10 + p.length : Nat) : Nat) : Int) ++ writeInt32LE packetId)
      (writeInt32LE t) (bufferFromAscii p ++ [0, 0]) 8 12
      (by simp [writeInt32LE_length]) (by simp [writeInt32LE_length])]

/-- The size field of a created packet decodes to `10 + len(payload)`. -/
theorem size_field_createPacket (t : Int) (p : List Nat)
    (hlen : p.length + 10 < 2147483648) :
    readInt32LE (subarray (createPacket t p) 0 4) = ((10 + p.length : Nat) : Int) := by
  rw [createPacket_eq,
    subarray_left (writeInt32LE (((10 + p.length : Nat) : Nat) : Int))
      (writeInt32LE packetId ++ (writeInt32LE t ++ (bufferFromAscii p ++ [0, 0]))) 4
      (by simp [writeInt32LE_length]),
    readInt32LE_writeInt32LE (10 + p.length) (by omega)]

/-- The payload slice of a created packet is the ascii re-decoding of the
encoded payload. -/
theorem getPayload_createPacket (t : Int) (p : List Nat)
    (hlen : p.length + 10 < 2147483648) :
    getPayload (createPacket t p) = bufferToAscii (bufferFromAscii p) := by
  unfold getPayload
  rw [size_field_createPacket t p hlen]
  have hidx : (12 + ((((10 + p.length : Nat) : Nat) : Int) - 10))
      = (((12 + p.length : Nat) : Nat) : Int) := by push_cast; ring
  dsimp only
  rw [hidx, createPacket_eq, ← List.append_assoc, ← List.append_assoc,
    subarray_append
      (writeInt32LE (((10 + p.length : Nat) : Nat) : Int) ++ writeInt32LE packetId
        ++ writeInt32LE t)
      (bufferFromAscii p) [0, 0] 12 (((12 + p.length : Nat) : Nat) : Int)
      (by simp [writeInt32LE_length])
      (by simp [writeInt32LE_length, bufferFromAscii])]

/-- C1: for every ASCII payload `p` (7-bit character codes, representable
packet size) and every defined packet type `t`, decoding the buffer
produced by `createPacket` yields the fixed correlation id 1337, the type
`t`, and the payload `p`. -/
theorem c1_decode_encode_round_trip (t : Int) (p : List Nat)
    (hascii : p.all (fun c => c < 128) = true)
    (ht : t = PACKET_TYPE_RESPONSE_VALUE ∨ t = PACKET_TYPE_EXEC_COMMAND ∨ t = PACKET_TYPE_AUTH)
    (hlen : p.length + 10 < 2147483648) :
    getId (createPacket t p) = 1337 ∧
    getType (createPacket t p) = t ∧
    getPayload (createPacket t p) = p := by
  refine ⟨getId_createPacket t p, ?_, ?_⟩
  · rw [getType_createPacket]
    rcases ht with h | h | h <;> subst h <;> decide
  · rw [getPayload_createPacket t p hlen, ascii_round p hascii]

/-- C1 witness: concrete instance with `t = EXEC_COMMAND` and payload
`"info"` (character codes `[105, 110, 102, 111]`). -/
theorem c1_decode_encode_round_trip_witness :
    ([105, 110, 102, 111] : List Nat).all (fun c => c < 128) = true ∧
    ((2 : Int) = PACKET_TYPE_RESPONSE_VALUE ∨ (2 : Int) = PACKET_TYPE_EXEC_COMMAND ∨
      (2 : Int) = PACKET_TYPE_AUTH) ∧
    ([105, 110, 102, 111] : List Nat).length + 10 < 2147483648 ∧
    (getId (createPacket 2 [105, 110, 102, 111]) = 1337 ∧
     getType (createPacket 2 [105, 110, 102, 111]) = 2 ∧
     getPayload (createPacket 2 [105, 110, 102, 111]) = [105, 110, 102, 111]) :=
  ⟨by decide, by right; left; decide, by decide,
    c1_decode_encode_round_trip 2 [105, 110, 102, 111] (by decide)
      (by right; left; decide) (by decide)⟩

/-- C2: the first 4 bytes of a created packet, read as a little-endian
int32, equal the total packet length minus 4, equivalently
`10 + len(payload)`, and the packet ends with exactly two null bytes after
the payload. -/
theorem c2_size_invariant (t : Int) (p : List Nat)
    (hlen : p.length + 10 < 2147483648) :
    readInt32LE (subarray (createPacket t p) 0 4)
        = ((createPacket t p).length : Int) - 4 ∧
    readInt32LE (subarray (createPacket t p) 0 4) = 10 + (p.length : Int) ∧
    (createPacket t p).drop (12 + p.length) = [0, 0] := by
  have hlenpkt : (createPacket t p).length = 14 + p.length := by
    rw [createPacket_eq]
    simp [writeInt32LE_length, bufferFromAscii]
    omega
  refine ⟨?_, ?_, ?_⟩
  · rw [size_field_createPacket t p hlen, hlenpkt]
    push_cast
    ring
  · rw [size_field_createPacket t p hlen]
    push_cast
    ring
  · rw [createPacket_eq, ← List.append_assoc, ← List.append_assoc, ← List.append_assoc]
    exact List.drop_left' (by simp [writeInt32LE_length, bufferFromAscii]; omega)

/-- C2 witness: concrete instance with `t = AUTH` and payload `"secret"`. -/
theorem c2_size_invariant_witness :
    ([115, 101, 99, 114, 101, 116] : List Nat).length + 10 < 2147483648 ∧
    (readInt32LE (subarray (createPacket 3 [115, 101, 99, 114, 101, 116]) 0 4)
        = ((createPacket 3 [115, 101, 99, 114, 101, 116]).length : Int) - 4 ∧
     readInt32LE (subarray (createPacket 3 [115, 101, 99, 114, 101, 116]) 0 4)
        = 10 + (([115, 101, 99, 114, 101, 116] : List Nat).length : Int) ∧
     (createPacket 3 [115, 101, 99, 114, 101, 116]).drop
        (12 + ([115, 101, 99, 114, 101, 116] : List Nat).length) = [0, 0]) :=
  ⟨by decide, c2_size_invariant 3 [115, 101, 99, 114, 101, 116] (by decide)⟩

/-!
## Session state machine

The `RCON()` closure state: `client` (a transport handle, or null),
`isAuthenticated`, `isAuthenticating`, `rconPassword`, and the four
promise-settlement callbacks.  `sendCallbacksSet` models whether
`sendResolve` / `sendReject` are non-null (they are set on every `send`
call and never cleared).  The connect callbacks are always non-null in any
state in which the handlers can fire, since the handlers are only
registered inside `connect`, so they are not tracked.

Observable actions of a handler or operation (calls to promise-settlement
callbacks, writes to the transport, and the settlement of the operation's
own promise) are returned as a list of `Effect`s, in program order.
-/

/-- An observable action of a session operation or event handler. -/
inductive Effect where
  | connectResolved : Effect
  | connectRejected : String → Effect
  | sendResolved : List Nat → Effect
  | sendRejected : String → Effect
  | write : List Nat → Effect
  | disconnectResolved : Effect
  | disconnectThrew : Effect
deriving DecidableEq

/-- The mutable closure state of one `RCON()` session.  `client` is true
when the transport handle is non-null; `clientDestroyed` records that
`destroy()` has been called on it. -/
structure Session where
  client : Bool
  clientDestroyed : Bool
  isAuthenticated : Bool
  isAuthenticating : Bool
  sendCallbacksSet : Bool
  rconPassword : List Nat
deriving DecidableEq

/-- The state of a freshly constructed `RCON()` session: no transport, no
flags set, no callbacks registered (`rconPassword` null, modelled `[]`). -/
def initialSession : Session :=
  { client := false, clientDestroyed := false, isAuthenticated := false,
    isAuthenticating := false, sendCallbacksSet := false, rconPassword := [] }

/-- `handleConnect()`: no-op when already authenticated; otherwise enter
Authenticating and write the AUTH packet carrying the stored password. -/
def handleConnect (s : Session) : Session × List Effect :=
  if s.isAuthenticated then (s, [])
  else ({ s with isAuthenticating := true },
    [Effect.write (createPacket PACKET_TYPE_AUTH s.rconPassword)])

/-- `handleClose(hasError)`: on an error-carrying close, call
`sendReject?.("Unable to connect to remote host")` (a call only when the
send callbacks are non-null); otherwise do nothing. -/
def handleClose (s : Session) (hasError : Bool) : Session × List Effect :=
  if hasError then
    (s, if s.sendCallbacksSet then [Effect.sendRejected "Unable to connect to remote host"] else [])
  else (s, [])

/-- `handleError(error)`: reject the connect operation for the three mapped
errno values; any other errno falls through with no action. -/
def handleError (s : Session) (errno : Int) : Session × List Effect :=
  if errno = -4078 then (s, [Effect.connectRejected "Remote host refused connection"])
  else if errno = -3008 then (s, [Effect.connectRejected "Unable to connect to remote host"])
  else if errno = -4039 then (s, [Effect.connectRejected "Connection to remote host timed out"])
  else (s, [])

/-- `handleAuthResponse(buffer)`: clear `isAuthenticating`; on an id
mismatch set `isAuthenticated = false` and reject the connect operation;
on a match set `isAuthenticated = true` and resolve it. -/
def handleAuthResponse (s : Session) (buffer : List Nat) : Session × List Effect :=
  let s1 := { s with isAuthenticating := false }
  if getId buffer ≠ packetId then
    ({ s1 with isAuthenticated := false },
      [Effect.connectRejected "RCON authentication failed"])
  else
    ({ s1 with isAuthenticated := true }, [Effect.connectResolved])

/-- `handleDataResponse(buffer)`: `sendResolve?.(getPayload(buffer))` — a
call to the send-resolve callback when it is non-null. -/
def handleDataResponse (s : Session) (buffer : List Nat) : Session × List Effect :=
  (s, if s.sendCallbacksSet then [Effect.sendResolved (getPayload buffer)] else [])

/-- `handleData(buffer)`: run the auth-response handler when
Authenticating, then unconditionally run the data-response handler. -/
def handleData (s : Session) (buffer : List Nat) : Session × List Effect :=
  let r1 := if s.isAuthenticating then handleAuthResponse s buffer else (s, [])
  let r2 := handleDataResponse r1.1 buffer
  (r2.1, r1.2 ++ r2.2)

/-- `send(command)`: store the new send callbacks; when not authenticated,
reject with "RCON client not authenticated"; then `client.write(packet)`.
When `client` is null, that write throws a TypeError inside the promise
executor — the promise is already settled by the earlier `reject`, the
exception is swallowed by promise machinery, and no write occurs. -/
def send (s : Session) (command : List Nat) : Session × List Effect :=
  let s1 := { s with sendCallbacksSet := true }
  let rejectEffs :=
    if s1.isAuthenticated then []
    else [Effect.sendRejected "RCON client not authenticated"]
  if s1.client then
    (s1, rejectEffs ++ [Effect.write (createPacket PACKET_TYPE_EXEC_COMMAND command)])
  else
    (s1, rejectEffs)

/-- `disconnect()`: `client.destroy()`, clear both auth flags, resolve.
When `client` is null, `client.destroy()` throws a TypeError as the first
statement of the promise executor, so the returned promise rejects and no
state is changed. -/
def disconnect (s : Session) : Session × List Effect :=
  if s.client then
    ({ s with clientDestroyed := true, isAuthenticated := false, isAuthenticating := false },
      [Effect.disconnectResolved])
  else
    (s, [Effect.disconnectThrew])

/-- A session that has opened its transport and entered the Authenticating
state (as after the connect event fires), password `"secret"`. -/
def authingSession : Session :=
  { client := true, clientDestroyed := false, isAuthenticated := false,
    isAuthenticating := true, sendCallbacksSet := false,
    rconPassword := [115, 101, 99, 114, 101, 116] }

/-- A Ready session (authenticated, not authenticating) with the send
callbacks registered by a pending `send`. -/
def readySendingSession : Session :=
  { client := true, clientDestroyed := false, isAuthenticated := true,
    isAuthenticating := false, sendCallbacksSet := true,
    rconPassword := [115, 101, 99, 114, 101, 116] }

/-- `handleAuthResponse` never changes the send-callback registration. -/
theorem handleAuthResponse_sendCallbacksSet (s : Session) (b : List Nat) :
    (handleAuthResponse s b).1.sendCallbacksSet = s.sendCallbacksSet := by
  unfold handleAuthResponse
  split <;> rfl

/-- C3: a data event in the Authenticating state whose packet id equals the
fixed correlation id sets `authenticated`, clears `authenticating`, and
resolves the pending connect operation. -/
theorem c3_auth_success (s : Session) (b : List Nat)
    (hauth : s.isAuthenticating = true) (hid : getId b = packetId) :
    (handleData s b).1.isAuthenticated = true ∧
    (handleData s b).1.isAuthenticating = false ∧
    Effect.connectResolved ∈ (handleData s b).2 := by
  unfold handleData handleAuthResponse handleDataResponse
  rw [hauth]
  simp [hid]

/-- C3 witness: the mock-transport scenario — from the Authenticating state
reached after the connect event, a reply packet carrying the fixed id
(an AUTH_RESPONSE built by `createPacket`) resolves connect. -/
theorem c3_auth_success_witness :
    authingSession.isAuthenticating = true ∧
    getId (createPacket 2 []) = packetId ∧
    ((handleData authingSession (createPacket 2 [])).1.isAuthenticated = true ∧
     (handleData authingSession (createPacket 2 [])).1.isAuthenticating = false ∧
     Effect.connectResolved ∈ (handleData authingSession (createPacket 2 [])).2) :=
  ⟨by decide, by decide, c3_auth_success authingSession (createPacket 2 []) (by decide) (by decide)⟩

/-- C4: a data event in the Authenticating state whose packet id differs
from the fixed correlation id clears both flags and rejects the pending
connect operation with the authentication-failure error, leaving the
session unauthenticated. -/
theorem c4_auth_failure (s : Session) (b : List Nat)
    (hauth : s.isAuthenticating = true) (hid : getId b ≠ packetId) :
    (handleData s b).1.isAuthenticated = false ∧
    (handleData s b).1.isAuthenticating = false ∧
    Effect.connectRejected "RCON authentication failed" ∈ (handleData s b).2 := by
  unfold handleData handleAuthResponse handleDataResponse
  rw [hauth]
  simp [hid]

/-- C4 witness: a reply whose id field decodes to 42 rejects connect and
leaves the session unauthenticated. -/
theorem c4_auth_failure_witness :
    authingSession.isAuthenticating = true ∧
    getId (writeInt32LE 10 ++ (writeInt32LE 42 ++ (writeInt32LE 2 ++ [0, 0]))) ≠ packetId ∧
    ((handleData authingSession
        (writeInt32LE 10 ++ (writeInt32LE 42 ++ (writeInt32LE 2 ++ [0, 0])))).1.isAuthenticated
        = false ∧
     (handleData authingSession
        (writeInt32LE 10 ++ (writeInt32LE 42 ++ (writeInt32LE 2 ++ [0, 0])))).1.isAuthenticating
        = false ∧
     Effect.connectRejected "RCON authentication failed" ∈
       (handleData authingSession
        (writeInt32LE 10 ++ (writeInt32LE 42 ++ (writeInt32LE 2 ++ [0, 0])))).2) :=
  ⟨by decide, by decide,
    c4_auth_failure authingSession (writeInt32LE 10 ++ (writeInt32LE 42 ++ (writeInt32LE 2 ++ [0, 0])))
      (by decide) (by decide)⟩

/-- C5: in a Ready session with a pending send, a data event carrying
buffer `b` produces exactly one settlement — the pending send fulfilled
with `getPayload b` — and leaves the session state unchanged. -/
theorem c5_send_resolved_ready (s : Session) (b : List Nat)
    (_hA : s.isAuthenticated = true) (hG : s.isAuthenticating = false)
    (hp : s.sendCallbacksSet = true) :
    (handleData s b).2 = [Effect.sendResolved (getPayload b)] ∧
    (handleData s b).1 = s := by
  unfold handleData handleDataResponse
  rw [hG]
  simp [hp]

/-- C5 witness: a Ready session with one pending send, handed an echoed
packet with payload `"info-response"`, fulfills the send with exactly
`"info-response"`. -/
theorem c5_send_resolved_ready_witness :
    readySendingSession.isAuthenticated = true ∧
    readySendingSession.isAuthenticating = false ∧
    readySendingSession.sendCallbacksSet = true ∧
    getPayload (createPacket 0 [105, 110, 102, 111, 45, 114, 101, 115, 112, 111, 110, 115, 101])
      = [105, 110, 102, 111, 45, 114, 101, 115, 112, 111, 110, 115, 101] ∧
    ((handleData readySendingSession
        (createPacket 0 [105, 110, 102, 111, 45, 114, 101, 115, 112, 111, 110, 115, 101])).2
      = [Effect.sendResolved
          (getPayload
            (createPacket 0 [105, 110, 102, 111, 45, 114, 101, 115, 112, 111, 110, 115, 101]))] ∧
     (handleData readySendingSession
        (createPacket 0 [105, 110, 102, 111, 45, 114, 101, 115, 112, 111, 110, 115, 101])).1
      = readySendingSession) :=
  ⟨by decide, by decide, by decide, by decide,
    c5_send_resolved_ready readySendingSession
      (createPacket 0 [105, 110, 102, 111, 45, 114, 101, 115, 112, 111, 110, 115, 101])
      (by decide) (by decide) (by decide)⟩

/-- C6 counterexample: on a never-connected session (`client` null),
`send` rejects with the authentication error but performs no write at all
(`client.write` throws on the null handle), refuting the claim that every
unauthenticated `send` still writes the EXEC_COMMAND packet. -/
theorem c6_counterexample :
    initialSession.isAuthenticated = false ∧
    (send initialSession [105, 110, 102, 111]).2
      = [Effect.sendRejected "RCON client not authenticated"] ∧
    Effect.write (createPacket PACKET_TYPE_EXEC_COMMAND [105, 110, 102, 111]) ∉
      (send initialSession [105, 110, 102, 111]).2 := by
  decide

/-- C6 (amended to sessions holding a transport handle): on an
unauthenticated session whose `client` is non-null, `send` rejects with
the authentication-required error and nevertheless still writes the
encoded EXEC_COMMAND packet. -/
theorem c6_send_unauthenticated (s : Session) (cmd : List Nat)
    (hA : s.isAuthenticated = false) (hc : s.client = true) :
    (send s cmd).2
      = [Effect.sendRejected "RCON client not authenticated",
         Effect.write (createPacket PACKET_TYPE_EXEC_COMMAND cmd)] := by
  unfold send
  simp [hA, hc]

/-- C6 witness: a connected but unauthenticated session both rejects and
writes. -/
theorem c6_send_unauthenticated_witness :
    authingSession.isAuthenticated = false ∧
    authingSession.client = true ∧
    (send authingSession [105, 110, 102, 111]).2
      = [Effect.sendRejected "RCON client not authenticated",
         Effect.write (createPacket PACKET_TYPE_EXEC_COMMAND [105, 110, 102, 111])] :=
  ⟨by decide, by decide, c6_send_unauthenticated authingSession [105, 110, 102, 111]
    (by decide) (by decide)⟩

/-- C7 counterexample: on a never-connected session `client` is null, so
`client.destroy()` throws as the first statement of the promise executor:
`disconnect()` rejects instead of fulfilling, refuting the claim that it
always fulfills in every session state. -/
theorem c7_counterexample :
    initialSession.client = false ∧
    (disconnect initialSession).2 = [Effect.disconnectThrew] ∧
    Effect.disconnectResolved ∉ (disconnect initialSession).2 := by
  decide

/-- C7 (amended to sessions holding a transport handle): `disconnect`
destroys the transport, clears both auth flags, and fulfills. -/
theorem c7_disconnect (s : Session) (hc : s.client = true) :
    (disconnect s).1.clientDestroyed = true ∧
    (disconnect s).1.isAuthenticated = false ∧
    (disconnect s).1.isAuthenticating = false ∧
    (disconnect s).2 = [Effect.disconnectResolved] := by
  unfold disconnect
  simp [hc]

/-- C7 witness: disconnecting a Ready session destroys the handle, clears
the flags and fulfills. -/
theorem c7_disconnect_witness :
    readySendingSession.client = true ∧
    ((disconnect readySendingSession).1.clientDestroyed = true ∧
     (disconnect readySendingSession).1.isAuthenticated = false ∧
     (disconnect readySendingSession).1.isAuthenticating = false ∧
     (disconnect readySendingSession).2 = [Effect.disconnectResolved]) :=
  ⟨by decide, c7_disconnect readySendingSession (by decide)⟩

/-- C8: a transport error rejects the pending connect operation exactly
when the errno is one of the three mapped values, and an unmapped errno
produces no settlement at all and leaves the session state unchanged. -/
theorem c8_error_mapping (s : Session) (errno : Int) :
    (handleError s errno).1 = s ∧
    ((∃ msg, Effect.connectRejected msg ∈ (handleError s errno).2) ↔
      (errno = -4078 ∨ errno = -3008 ∨ errno = -4039)) ∧
    (¬(errno = -4078 ∨ errno = -3008 ∨ errno = -4039) →
      (handleError s errno).2 = []) := by
  unfold handleError
  split_ifs with h1 h2 h3 <;> simp_all

/-- C8 witness: errno -4078 rejects connect; errno 7 is swallowed. -/
theorem c8_error_mapping_witness :
    ((handleError initialSession (-4078)).1 = initialSession ∧
     ((∃ msg, Effect.connectRejected msg ∈ (handleError initialSession (-4078)).2) ↔
       ((-4078 : Int) = -4078 ∨ (-4078 : Int) = -3008 ∨ (-4078 : Int) = -4039))) ∧
    (¬((7 : Int) = -4078 ∨ (7 : Int) = -3008 ∨ (7 : Int) = -4039) →
      (handleError initialSession 7).2 = []) :=
  ⟨⟨(c8_error_mapping initialSession (-4078)).1, (c8_error_mapping initialSession (-4078)).2.1⟩,
    (c8_error_mapping initialSession 7).2.2⟩

/-- C9: a close carrying an error rejects the pending send (when the send
callbacks exist) with the connectivity-failure error; a close without an
error settles nothing — in particular it never settles a still-pending
connect operation. -/
theorem c9_close_handling (s : Session) :
    handleClose s false = (s, []) ∧
    (s.sendCallbacksSet = true →
      handleClose s true = (s, [Effect.sendRejected "Unable to connect to remote host"])) ∧
    (s.sendCallbacksSet = false → handleClose s true = (s, [])) := by
  unfold handleClose
  refine ⟨by simp, ?_, ?_⟩ <;> intro h <;> simp [h]

/-- C9 witness: with a pending send, an error-carrying close rejects it;
an error-free close settles nothing. -/
theorem c9_close_handling_witness :
    readySendingSession.sendCallbacksSet = true ∧
    handleClose readySendingSession false = (readySendingSession, []) ∧
    handleClose readySendingSession true
      = (readySendingSession, [Effect.sendRejected "Unable to connect to remote host"]) :=
  ⟨by decide, (c9_close_handling readySendingSession).1,
    (c9_close_handling readySendingSession).2.1 (by decide)⟩

/-- C10: whenever the send callbacks are registered, every data event —
the Authenticating state included — ends by resolving the pending send
with the decoded payload, since `handleData` runs `handleDataResponse`
unconditionally after (not instead of) `handleAuthResponse`. -/
theorem c10_send_resolved_any_state (s : Session) (b : List Nat)
    (hp : s.sendCallbacksSet = true) :
    ∃ pre, (handleData s b).2 = pre ++ [Effect.sendResolved (getPayload b)] := by
  unfold handleData handleDataResponse
  by_cases hA : s.isAuthenticating = true
  · rw [if_pos hA]
    refine ⟨(handleAuthResponse s b).2, ?_⟩
    dsimp only
    rw [handleAuthResponse_sendCallbacksSet, hp]
    simp
  · rw [if_neg hA]
    refine ⟨[], ?_⟩
    simp [hp]

/-- C10 witness: an Authenticating session with a pending send has that
send resolved by the very data event that completes authentication. -/
theorem c10_send_resolved_any_state_witness :
    ({ authingSession with sendCallbacksSet := true } : Session).sendCallbacksSet = true ∧
    (∃ pre, (handleData { authingSession with sendCallbacksSet := true }
        (createPacket 2 [])).2
      = pre ++ [Effect.sendResolved (getPayload (createPacket 2 []))]) :=
  ⟨by decide, c10_send_resolved_any_state { authingSession with sendCallbacksSet := true }
    (createPacket 2 []) (by decide)⟩

end EasyRcon
